import Mathlib

/-
Verification of the client-side interaction layer of a static portfolio
website (src/assets/js/script.js), as a shallow embedding in Lean 4.

DOM text (innerText / innerHTML / attribute values) is modelled as a list
of characters; presence of a CSS marker class ("active", "visible",
"hidden") on an element is modelled as a boolean field of the element's
record.  Each event handler of the script becomes a pure state-transition
function on the record type holding exactly the DOM slice that handler
touches; homogeneous element collections become lists.
-/

namespace Portfolio

/-- DOM strings: a JavaScript string as a list of characters. -/
abbrev JStr := List Char

/-- Whether a character is an ASCII uppercase letter (code 65 to 90). -/
def isUpperAscii (c : Char) : Bool := 65 ≤ c.toNat && c.toNat ≤ 90

/-- Character-level model of JavaScript String.prototype.toLowerCase for
the ASCII range: maps code points 65-90 to 97-122 and leaves every other
character unchanged. -/
def jsToLowerChar (c : Char) : Char :=
  if 65 ≤ c.toNat ∧ c.toNat ≤ 90 then Char.ofNat (c.toNat + 32) else c

/-- Model of JavaScript toLowerCase on a whole string. -/
def jsToLower (s : JStr) : JStr := s.map jsToLowerChar

/-- The literal string "all" used by filterByCategory. -/
def allStr : JStr := ['a', 'l', 'l']

/-- Replaces the element at index i of a list by f applied to it; leaves
the list unchanged when i is out of range. -/
def modifyAt {α : Type} (i : Nat) (f : α → α) : List α → List α
  | [] => []
  | a :: as =>
    match i with
    | 0 => f a :: as
    | j + 1 => a :: modifyAt j f as

-- ======== FILTERING SYSTEM (script.js lines 105-153) ========

/-- One element of the [data-filter-item] collection: its
data-category attribute and whether its class list holds "active". -/
structure FilterItem where
  category : JStr
  active : Bool
deriving DecidableEq, Repr

instance : Inhabited FilterItem := ⟨⟨[], false⟩⟩

/-- The filterByCategory closure (script.js lines 118-126): for each
filter item, adds the "active" class when the selected value is "all" or
equals the item's data-category attribute, and removes it otherwise. -/
def filterByCategory (selectedValue : JStr) (filterItems : List FilterItem) :
    List FilterItem :=
  filterItems.map (fun item =>
    if selectedValue = allStr ∨ selectedValue = item.category then
      { item with active := true }
    else
      { item with active := false })

/-- One element of the [data-filter-btn] collection: its innerText and
whether its class list holds "active". -/
structure FilterBtn where
  innerText : JStr
  active : Bool
deriving DecidableEq, Repr

instance : Inhabited FilterBtn := ⟨⟨[], false⟩⟩

/-- The DOM slice touched by initFiltering: the [data-select] element's
"active" class, the [data-selecct-value] label's innerText, the filter
buttons, the filter items, and the activeFilterBtn variable (tracked here
by index into the button list). -/
structure FilterState where
  selectActive : Bool
  selectValueText : JStr
  filterBtns : List FilterBtn
  filterItems : List FilterItem
  activeFilterBtn : Nat
deriving DecidableEq, Repr

/-- Click handler of a [data-select-item] dropdown option (script.js
lines 129-136), given the clicked option's innerText: lower-cases the
text, writes the raw text into the select label, toggles the dropdown's
"active" class, and filters the items. -/
def selectItemClick (s : FilterState) (optionText : JStr) : FilterState :=
  { s with
    selectValueText := optionText
    selectActive := !s.selectActive
    filterItems := filterByCategory (jsToLower optionText) s.filterItems }

/-- Click handler of the filter button at index j (script.js lines
141-152): lower-cases the button's innerText, writes the raw text into
the select label, filters the items, removes "active" from the previously
tracked button, adds "active" to the clicked button, and retargets the
activeFilterBtn variable at the clicked button. -/
def filterBtnClick (s : FilterState) (j : Nat) : FilterState :=
  let btnText := (s.filterBtns.getD j default).innerText
  { s with
    selectValueText := btnText
    filterItems := filterByCategory (jsToLower btnText) s.filterItems
    filterBtns :=
      modifyAt j (fun b => { b with active := true })
        (modifyAt s.activeFilterBtn (fun b => { b with active := false })
          s.filterBtns)
    activeFilterBtn := j }

/-- A sequence of filter-button clicks applied in order. -/
def filterBtnClicks (s : FilterState) (clicks : List Nat) : FilterState :=
  clicks.foldl filterBtnClick s

-- ======== TECHNOLOGIES MODAL (script.js lines 70-99) ========

/-- One element of the [data-technologies-item] collection, with the four
fields its click handler reads from descendant nodes. -/
structure TechItem where
  avatarSrc : JStr
  avatarAlt : JStr
  titleHTML : JStr
  textHTML : JStr
deriving DecidableEq, Repr

/-- The DOM slice touched by the modal feature: the "active" classes of
the [data-modal-container] and the [data-overlay], and the modal's
image src/alt, title innerHTML and text innerHTML. -/
structure ModalState where
  containerActive : Bool
  overlayActive : Bool
  imageSrc : JStr
  imageAlt : JStr
  titleHTML : JStr
  textHTML : JStr
deriving DecidableEq, Repr

/-- The toggleModal closure (script.js lines 74-77): toggles the
"active" class on the modal container and on the overlay. -/
def toggleModal (s : ModalState) : ModalState :=
  { s with
    containerActive := !s.containerActive
    overlayActive := !s.overlayActive }

/-- Click handler of a technology item (script.js lines 81-93): copies
the item's avatar src and alt, title markup and text markup into the
modal fields, then calls toggleModal. -/
def techItemClick (s : ModalState) (item : TechItem) : ModalState :=
  toggleModal
    { s with
      imageSrc := item.avatarSrc
      imageAlt := item.avatarAlt
      titleHTML := item.titleHTML
      textHTML := item.textHTML }

/-- Click handler of the [data-modal-close-btn] (script.js line 97):
just toggleModal. -/
def closeBtnClick (s : ModalState) : ModalState := toggleModal s

/-- Click handler of the [data-overlay] (script.js line 98): just
toggleModal. -/
def overlayClick (s : ModalState) : ModalState := toggleModal s

-- ======== CONTACT FORM (script.js lines 159-169) ========

/-- The DOM slice touched by the contact form feature: the validity of
each [data-form-input] field under its declared native constraints, and
the submit button's disabled flag. -/
structure FormState where
  fieldsValid : List Bool
  submitDisabled : Bool
deriving DecidableEq, Repr

/-- Modelled from the spec: the form container's native checkValidity()
(a host-environment built-in, not code of this repository) reports
whether every field value satisfies its declared per-field constraints;
the script delegates to it and does not reimplement it. -/
def checkValidity (s : FormState) : Bool := s.fieldsValid.all id

/-- The input-event handler (script.js lines 164-167): the input event
leaves field i with validity v, after which the handler sets the submit
button's disabled flag to the negation of the form's checkValidity(). -/
def formInputEvent (s : FormState) (i : Nat) (v : Bool) : FormState :=
  let s1 : FormState := { s with fieldsValid := s.fieldsValid.set i v }
  { s1 with submitDisabled := !checkValidity s1 }

-- ======== PAGE NAVIGATION (script.js lines 175-196) ========

/-- One element of the [data-page] collection: its data-page attribute
and whether its class list holds "active". -/
structure Page where
  pageName : JStr
  active : Bool
deriving DecidableEq, Repr

instance : Inhabited Page := ⟨⟨[], false⟩⟩

/-- One element of the [data-nav-link] collection: its innerHTML and
whether its class list holds "active". -/
structure NavLink where
  innerHTML : JStr
  active : Bool
deriving DecidableEq, Repr

instance : Inhabited NavLink := ⟨⟨[], false⟩⟩

/-- The DOM slice touched by initPageNavigation: the page sections, the
nav links, and the window scroll position. -/
structure NavState where
  pages : List Page
  links : List NavLink
  scrollX : Nat
  scrollY : Nat
deriving DecidableEq, Repr

/-- The per-page loop body applied to the link list (script.js line
187): for pageIndex i below the page count, links[pageIndex] gets its
"active" class set to whether page i is the target; links beyond the
page count are never touched. -/
def navSetLinks (target : JStr) : List Page → List NavLink → List NavLink
  | _, [] => []
  | [], ls => ls
  | p :: ps, l :: ls =>
    { l with active := decide (target = p.pageName) } :: navSetLinks target ps ls

/-- Click handler of a nav link (script.js lines 179-194), given the
clicked link's innerHTML: lower-cases it to the target page name, then
for every page sets the page's and the same-index link's "active" class
to whether the page's data-page attribute equals the target, and scrolls
the window to (0,0) whenever some page matches. -/
def navLinkClick (s : NavState) (clickedHTML : JStr) : NavState :=
  let target := jsToLower clickedHTML
  let anyMatch := s.pages.any (fun p => target = p.pageName)
  { pages := s.pages.map (fun p => { p with active := decide (target = p.pageName) })
    links := navSetLinks target s.pages s.links
    scrollX := if anyMatch then 0 else s.scrollX
    scrollY := if anyMatch then 0 else s.scrollY }

-- ======== SCROLL ANIMATIONS (script.js lines 202-244) ========

/-- One element observed by the IntersectionObserver: whether its class
list holds "visible". -/
structure RevealElem where
  visible : Bool
deriving DecidableEq, Repr

instance : Inhabited RevealElem := ⟨⟨false⟩⟩

/-- One IntersectionObserverEntry delivered to the callback: the index
of its target element and whether the host reports it as intersecting
the viewport past the observer's threshold. -/
structure ObsEntry where
  target : Nat
  isIntersecting : Bool
deriving DecidableEq, Repr

/-- The IntersectionObserver callback (script.js lines 207-213): for
each entry in delivery order, adds the "visible" class to the entry's
target when it is intersecting, and does nothing otherwise. -/
def observerCallback (els : List RevealElem) (entries : List ObsEntry) :
    List RevealElem :=
  entries.foldl
    (fun acc e =>
      if e.isIntersecting then
        modifyAt e.target (fun el => { el with visible := true }) acc
      else acc)
    els

-- ======== PAGE LOADER (script.js lines 262-278) ========

/-- The .page-loader element as seen by document.querySelector: none
when absent from the document, otherwise whether its class list holds
"hidden". -/
abbrev LoaderState := Option Bool

/-- The window load handler (script.js lines 264-269). It returns the
new loader state together with whether classList.add("hidden") was
invoked: when the loader is present it adds "hidden", when absent it
silently does nothing. -/
def onWindowLoad (loader : LoaderState) : LoaderState × Bool :=
  match loader with
  | none => (none, false)
  | some _ => (some true, true)

/-- The 3000 ms fallback timer handler (script.js lines 272-277). It
returns the new loader state together with whether
classList.add("hidden") was invoked: it acts only when the loader is
present and does not already hold "hidden". -/
def onFallbackTimer (loader : LoaderState) : LoaderState × Bool :=
  match loader with
  | none => (none, false)
  | some h => if h then (some h, false) else (some true, true)

/-- The delay of the fallback timer, in milliseconds (script.js line
277). -/
def loaderFallbackDelayMs : Nat := 3000

-- ======== HELPER LEMMAS ========

lemma length_modifyAt {α : Type} (i : Nat) (f : α → α) (l : List α) :
    (modifyAt i f l).length = l.length := by
  induction l generalizing i with
  | nil => simp [modifyAt]
  | cons a as ih =>
    cases i with
    | zero => rfl
    | succ j => simp [modifyAt, ih]

lemma getD_modifyAt_self {α : Type} (i : Nat) (f : α → α) (l : List α)
    (d : α) (h : i < l.length) :
    (modifyAt i f l).getD i d = f (l.getD i d) := by
  induction l generalizing i with
  | nil => simp at h
  | cons a as ih =>
    cases i with
    | zero => rfl
    | succ j =>
      simp only [modifyAt, List.getD_cons_succ]
      exact ih j (by simpa using h)

lemma getD_modifyAt_ne {α : Type} (i k : Nat) (f : α → α) (l : List α)
    (d : α) (hne : k ≠ i) :
    (modifyAt i f l).getD k d = l.getD k d := by
  induction l generalizing i k with
  | nil => simp [modifyAt]
  | cons a as ih =>
    cases i with
    | zero =>
      cases k with
      | zero => exact absurd rfl hne
      | succ m => rfl
    | succ j =>
      cases k with
      | zero => rfl
      | succ m =>
        simp only [modifyAt, List.getD_cons_succ]
        exact ih j m (by omega)

lemma getD_map_of_lt {α β : Type} (f : α → β) (l : List α) (i : Nat)
    (d : α) (d' : β) (h : i < l.length) :
    (l.map f).getD i d' = f (l.getD i d) := by
  rw [List.getD_eq_getElem _ _ (by simpa using h), List.getD_eq_getElem _ _ h]
  simp

lemma toNat_ofNat_small (n : Nat) (h : n < 55296) : (Char.ofNat n).toNat = n := by
  simp [Char.ofNat, Nat.isValidChar, h, Char.ofNatAux, Char.toNat, UInt32.toNat]

lemma isUpperAscii_jsToLowerChar (c : Char) :
    isUpperAscii (jsToLowerChar c) = false := by
  unfold isUpperAscii jsToLowerChar
  split
  · rename_i h
    rw [toNat_ofNat_small _ (by omega)]
    simp
    omega
  · rename_i h
    simp at h ⊢
    omega

lemma isUpperAscii_of_mem_jsToLower {t : JStr} {c : Char} (hc : c ∈ jsToLower t) :
    isUpperAscii c = false := by
  unfold jsToLower at hc
  obtain ⟨c0, _, rfl⟩ := List.mem_map.mp hc
  exact isUpperAscii_jsToLowerChar c0

/-- A lowercased string never equals a string holding an ASCII uppercase
character. -/
lemma jsToLower_ne_of_upper {t u : JStr} {c : Char} (hc : c ∈ u)
    (hup : isUpperAscii c = true) : jsToLower t ≠ u := by
  intro h
  rw [← h] at hc
  rw [isUpperAscii_of_mem_jsToLower hc] at hup
  exact Bool.false_ne_true hup

lemma length_filterByCategory (s : JStr) (items : List FilterItem) :
    (filterByCategory s items).length = items.length := by
  simp [filterByCategory]

/-- Pointwise description of filterByCategory. -/
lemma filterByCategory_getD (s : JStr) (items : List FilterItem) (i : Nat)
    (hi : i < items.length) :
    (filterByCategory s items).getD i default =
      (if s = allStr ∨ s = ((items.getD i default).category) then
        { items.getD i default with active := true }
      else
        { items.getD i default with active := false }) := by
  unfold filterByCategory
  rw [getD_map_of_lt _ _ _ default _ hi]

-- ======== CLAIM THEOREMS ========

/-- C1: for every selected category string s and every filter item, after
filterByCategory runs the item carries the "active" class if and only if
s is the literal string "all" or s equals the item's data-category
attribute; in particular selecting "all" marks every item active. -/
theorem C1_filter_visibility (s : JStr) (items : List FilterItem) (i : Nat)
    (hi : i < items.length) :
    ((((filterByCategory s items).getD i default).active = true) ↔
      (s = allStr ∨ s = (items.getD i default).category)) ∧
    ((filterByCategory allStr items).getD i default).active = true := by
  constructor
  · rw [filterByCategory_getD s items i hi]
    split
    · rename_i h
      simpa using h
    · rename_i h
      simpa using h
  · rw [filterByCategory_getD allStr items i hi]
    simp

/-- Witness for C1 on the concrete scenario of spec section 8: three
items with categories web, mobile, web, selection "web". -/
theorem C1_filter_visibility_witness :
    ((((filterByCategory ['w','e','b']
        [⟨['w','e','b'], false⟩, ⟨['m','o','b','i','l','e'], true⟩,
          ⟨['w','e','b'], false⟩]).getD 1 default).active = true) ↔
      ((['w','e','b'] : JStr) = allStr ∨
        (['w','e','b'] : JStr) =
          (([⟨['w','e','b'], false⟩, ⟨['m','o','b','i','l','e'], true⟩,
            ⟨['w','e','b'], false⟩] : List FilterItem).getD 1 default).category)) ∧
    ((filterByCategory allStr
        [⟨['w','e','b'], false⟩, ⟨['m','o','b','i','l','e'], true⟩,
          ⟨['w','e','b'], false⟩]).getD 1 default).active = true :=
  C1_filter_visibility ['w','e','b']
    [⟨['w','e','b'], false⟩, ⟨['m','o','b','i','l','e'], true⟩,
      ⟨['w','e','b'], false⟩] 1 (by decide)

/-- C10: category matching is case-asymmetric: the selected string is
lower-cased before comparison while the item's data-category attribute is
compared verbatim, so an item whose category attribute holds an ASCII
uppercase character never matches any selection derived from element text
by toLowerCase, and is active exactly when that selection is "all". -/
theorem C10_uppercase_category_unmatchable (t : JStr) (items : List FilterItem)
    (i : Nat) (hi : i < items.length) (c : Char)
    (hc : c ∈ (items.getD i default).category) (hup : isUpperAscii c = true) :
    jsToLower t ≠ (items.getD i default).category ∧
    (((filterByCategory (jsToLower t) items).getD i default).active = true ↔
      jsToLower t = allStr) := by
  have hne : jsToLower t ≠ (items.getD i default).category :=
    jsToLower_ne_of_upper hc hup
  refine ⟨hne, ?_⟩
  rw [filterByCategory_getD (jsToLower t) items i hi]
  split
  · rename_i h
    rcases h with h | h
    · simpa using h
    · exact absurd h hne
  · rename_i h
    push_neg at h
    simp [h.1]

/-- Witness for C10: an item whose category is "Web" (capital W) is not
matched by clicking an option whose text is "Web", since the handler
lower-cases the text to "web". -/
theorem C10_uppercase_category_unmatchable_witness :
    jsToLower ['W','e','b'] ≠
      (([⟨['W','e','b'], true⟩] : List FilterItem).getD 0 default).category ∧
    (((filterByCategory (jsToLower ['W','e','b'])
        [⟨['W','e','b'], true⟩]).getD 0 default).active = true ↔
      jsToLower ['W','e','b'] = allStr) :=
  C10_uppercase_category_unmatchable ['W','e','b'] [⟨['W','e','b'], true⟩] 0
    (by decide) 'W' (by decide) (by decide)

/-- C6: after every input event inside the contact form, the submit
control's disabled flag equals the logical negation of the form's native
overall validity check, for every combination of field validity states;
equivalently the submit control is enabled exactly when every field is
valid. -/
theorem C6_submit_gate (s : FormState) (i : Nat) (v : Bool) :
    (formInputEvent s i v).submitDisabled =
      !checkValidity (formInputEvent s i v) ∧
    ((formInputEvent s i v).submitDisabled = false ↔
      ∀ b ∈ (formInputEvent s i v).fieldsValid, b = true) := by
  constructor
  · rfl
  · simp [formInputEvent, checkValidity, List.all_eq_true]

/-- C7: the loader is hidden by the window load handler and by the 3000
ms fallback timer handler alike; the timer handler leaves an
already-hidden loader untouched and invokes no class mutation there; both
handlers silently do nothing when the loader element is absent. -/
theorem C7_loader_dismissal :
    (∀ h : Bool, (onWindowLoad (some h)).1 = some true) ∧
    (∀ h : Bool, (onFallbackTimer (some h)).1 = some true) ∧
    onFallbackTimer (some true) = (some true, false) ∧
    onWindowLoad none = (none, false) ∧
    onFallbackTimer none = (none, false) ∧
    loaderFallbackDelayMs = 3000 := by
  refine ⟨fun h => by cases h <;> rfl, fun h => by cases h <;> rfl,
    rfl, rfl, rfl, rfl⟩

/-- C8: the IntersectionObserver callback is monotone on the "visible"
class: after any callback an element is visible exactly when it was
already visible or some delivered entry targets it and is intersecting;
in particular the class is never removed, and it is only added for an
intersecting entry. -/
theorem C8_reveal_monotone (els : List RevealElem) (entries : List ObsEntry)
    (i : Nat) (hi : i < els.length) :
    (observerCallback els entries).length = els.length ∧
    ((observerCallback els entries).getD i default).visible =
      ((els.getD i default).visible ||
        entries.any (fun e => decide (e.target = i) && e.isIntersecting)) := by
  induction entries generalizing els with
  | nil => simp [observerCallback]
  | cons e es ih =>
    have hstep :
        observerCallback els (e :: es) =
          observerCallback
            (if e.isIntersecting then
              modifyAt e.target (fun el => { el with visible := true }) els
            else els) es := rfl
    cases hint : e.isIntersecting with
    | false =>
      rw [hstep]
      simp only [hint, Bool.false_eq_true, if_false]
      obtain ⟨hlen, hval⟩ := ih els hi
      refine ⟨hlen, ?_⟩
      rw [hval]
      simp [hint]
    | true =>
      rw [hstep]
      simp only [hint, if_true]
      have hlen' :
          (modifyAt e.target (fun el => { el with visible := true }) els).length =
            els.length := length_modifyAt _ _ _
      obtain ⟨hlen, hval⟩ := ih _ (by rw [hlen']; exact hi)
      refine ⟨by rw [hlen, hlen'], ?_⟩
      rw [hval]
      by_cases htg : e.target = i
      · subst htg
        rw [getD_modifyAt_self _ _ _ _ hi]
        simp [hint]
      · rw [getD_modifyAt_ne _ _ _ _ _ (Ne.symm htg)]
        simp [hint, htg]

/-- Witness for C8: one element, two entries; the first entry is not
intersecting, the second is, so the element ends up visible. -/
theorem C8_reveal_monotone_witness :
    (observerCallback [⟨false⟩] [⟨0, false⟩, ⟨0, true⟩]).length =
      ([⟨false⟩] : List RevealElem).length ∧
    ((observerCallback [⟨false⟩] [⟨0, false⟩, ⟨0, true⟩]).getD 0 default).visible =
      ((([⟨false⟩] : List RevealElem).getD 0 default).visible ||
        ([⟨0, false⟩, ⟨0, true⟩] : List ObsEntry).any
          (fun e => decide (e.target = 0) && e.isIntersecting)) :=
  C8_reveal_monotone [⟨false⟩] [⟨0, false⟩, ⟨0, true⟩] 0 (by decide)

/-- C9: because the item-click handler calls toggleModal rather than
adding the class, clicking a technology item while the modal container
and overlay already carry the "active" class overwrites the modal content
with the clicked item's fields and then removes the class from both, so
the modal closes instead of staying open with the new content. -/
theorem C9_item_click_closes_open_modal (s : ModalState) (item : TechItem)
    (hc : s.containerActive = true) (ho : s.overlayActive = true) :
    techItemClick s item =
      ⟨false, false, item.avatarSrc, item.avatarAlt,
        item.titleHTML, item.textHTML⟩ := by
  simp [techItemClick, toggleModal, hc, ho]

/-- Witness for C9: an open modal with stored content, clicked item with
fresh content; the click stores the new content and closes the modal. -/
theorem C9_item_click_closes_open_modal_witness :
    techItemClick ⟨true, true, ['o'], ['l'], ['d'], ['q']⟩
        ⟨['n'], ['e'], ['w'], ['z']⟩ =
      ⟨false, false, ['n'], ['e'], ['w'], ['z']⟩ :=
  C9_item_click_closes_open_modal ⟨true, true, ['o'], ['l'], ['d'], ['q']⟩
    ⟨['n'], ['e'], ['w'], ['z']⟩ rfl rfl

/-- Counterexample to C5 as stated: clicking a technology item while the
modal is already open does not give the container and overlay the
"active" class; the toggle removes it from both. -/
theorem C5_claim_counterexample :
    ¬ ((techItemClick ⟨true, true, [], [], [], []⟩
          ⟨['x'], ['y'], ['t'], ['b']⟩).containerActive = true ∧
       (techItemClick ⟨true, true, [], [], [], []⟩
          ⟨['x'], ['y'], ['t'], ['b']⟩).overlayActive = true) := by
  decide

/-- C5 (amended): provided the modal container and overlay do not already
carry the "active" class, clicking a technology item copies that item's
avatar src and alt, title markup and body markup verbatim into the
modal's fields and gives both the container and the overlay the class;
and when both carry the class, clicking the close control or the overlay
removes it from both while leaving the stored image, title and text
unchanged. -/
theorem C5_modal_open_close (s1 : ModalState) (item : TechItem)
    (hc1 : s1.containerActive = false) (ho1 : s1.overlayActive = false)
    (s2 : ModalState)
    (hc2 : s2.containerActive = true) (ho2 : s2.overlayActive = true) :
    techItemClick s1 item =
      ⟨true, true, item.avatarSrc, item.avatarAlt,
        item.titleHTML, item.textHTML⟩ ∧
    closeBtnClick s2 =
      { s2 with containerActive := false, overlayActive := false } ∧
    overlayClick s2 =
      { s2 with containerActive := false, overlayActive := false } := by
  refine ⟨?_, ?_, ?_⟩ <;>
    simp [techItemClick, closeBtnClick, overlayClick, toggleModal,
      hc1, ho1, hc2, ho2]

/-- Witness for the amended C5: opening from a closed modal stores the
item's content and reveals both surfaces; closing an open modal hides
both and keeps the content. -/
theorem C5_modal_open_close_witness :
    techItemClick ⟨false, false, ['o'], ['o'], ['o'], ['o']⟩
        ⟨['s'], ['a'], ['t'], ['x']⟩ =
      ⟨true, true, ['s'], ['a'], ['t'], ['x']⟩ ∧
    closeBtnClick ⟨true, true, ['s'], ['a'], ['t'], ['x']⟩ =
      { (⟨true, true, ['s'], ['a'], ['t'], ['x']⟩ : ModalState) with
        containerActive := false, overlayActive := false } ∧
    overlayClick ⟨true, true, ['s'], ['a'], ['t'], ['x']⟩ =
      { (⟨true, true, ['s'], ['a'], ['t'], ['x']⟩ : ModalState) with
        containerActive := false, overlayActive := false } :=
  C5_modal_open_close ⟨false, false, ['o'], ['o'], ['o'], ['o']⟩
    ⟨['s'], ['a'], ['t'], ['x']⟩ rfl rfl
    ⟨true, true, ['s'], ['a'], ['t'], ['x']⟩ rfl rfl

/-- Counterexample to C3 as stated: clicking the filter button whose
innerText is "Web" while the dropdown label reads "all" changes the
dropdown's displayed label text (script.js line 144 writes the button's
innerText into the label). -/
theorem C3_claim_counterexample :
    ¬ ((filterBtnClick
          ⟨false, ['a','l','l'], [⟨['W','e','b'], false⟩], [], 0⟩
          0).selectValueText =
        (⟨false, ['a','l','l'], [⟨['W','e','b'], false⟩], [], 0⟩ :
          FilterState).selectValueText) := by
  decide

/-- C3 (amended): the non-synchronization of the two filter input
surfaces is one-directional: a dropdown-option click leaves every filter
button's highlighted state (and the tracked active button) unchanged,
while a filter-button click does write the clicked button's innerText
into the dropdown's displayed label. -/
theorem C3_one_directional_sync (s : FilterState) (optionText : JStr)
    (j : Nat) (hj : j < s.filterBtns.length) :
    (selectItemClick s optionText).filterBtns = s.filterBtns ∧
    (selectItemClick s optionText).activeFilterBtn = s.activeFilterBtn ∧
    (filterBtnClick s j).selectValueText =
      (s.filterBtns.getD j default).innerText := by
  exact ⟨rfl, rfl, rfl⟩

/-- Witness for the amended C3: one dropdown option "web" and one filter
button "Web" on a concrete state. -/
theorem C3_one_directional_sync_witness :
    (selectItemClick
        ⟨false, ['a','l','l'], [⟨['W','e','b'], true⟩], [], 0⟩
        ['w','e','b']).filterBtns =
      (⟨false, ['a','l','l'], [⟨['W','e','b'], true⟩], [], 0⟩ :
        FilterState).filterBtns ∧
    (selectItemClick
        ⟨false, ['a','l','l'], [⟨['W','e','b'], true⟩], [], 0⟩
        ['w','e','b']).activeFilterBtn =
      (⟨false, ['a','l','l'], [⟨['W','e','b'], true⟩], [], 0⟩ :
        FilterState).activeFilterBtn ∧
    (filterBtnClick
        ⟨false, ['a','l','l'], [⟨['W','e','b'], true⟩], [], 0⟩
        0).selectValueText =
      ((⟨false, ['a','l','l'], [⟨['W','e','b'], true⟩], [], 0⟩ :
        FilterState).filterBtns.getD 0 default).innerText :=
  C3_one_directional_sync
    ⟨false, ['a','l','l'], [⟨['W','e','b'], true⟩], [], 0⟩
    ['w','e','b'] 0 (by decide)

/-- Invariant of the filter-button highlight: the tracked
activeFilterBtn index is in range and a button carries the "active" class
exactly when it is the tracked one. -/
def btnInvariant (s : FilterState) : Prop :=
  s.activeFilterBtn < s.filterBtns.length ∧
  ∀ i, i < s.filterBtns.length →
    (s.filterBtns.getD i default).active = decide (i = s.activeFilterBtn)

lemma length_filterBtnClick (s : FilterState) (j : Nat) :
    (filterBtnClick s j).filterBtns.length = s.filterBtns.length := by
  simp [filterBtnClick, length_modifyAt]

lemma btnInvariant_filterBtnClick (s : FilterState) (j : Nat)
    (hj : j < s.filterBtns.length) (hinv : btnInvariant s) :
    btnInvariant (filterBtnClick s j) ∧
    (filterBtnClick s j).activeFilterBtn = j := by
  obtain ⟨htr, hact⟩ := hinv
  have htrk : (filterBtnClick s j).activeFilterBtn = j := rfl
  refine ⟨⟨?_, ?_⟩, htrk⟩
  · rw [htrk, length_filterBtnClick]
    exact hj
  · intro i hi
    rw [length_filterBtnClick] at hi
    have hinner : i < (modifyAt s.activeFilterBtn
        (fun b => { b with active := false }) s.filterBtns).length := by
      rw [length_modifyAt]; exact hi
    show ((modifyAt j (fun b => { b with active := true })
        (modifyAt s.activeFilterBtn (fun b => { b with active := false })
          s.filterBtns)).getD i default).active = decide (i = j)
    by_cases hij : i = j
    · subst hij
      rw [getD_modifyAt_self _ _ _ _ hinner]
      simp
    · rw [getD_modifyAt_ne _ _ _ _ _ hij]
      by_cases hit : i = s.activeFilterBtn
      · subst hit
        rw [getD_modifyAt_self _ _ _ _ (by exact htr)]
        simp [hij]
      · rw [getD_modifyAt_ne _ _ _ _ _ hit]
        rw [hact i hi]
        simp [hij, hit]

lemma btnInvariant_filterBtnClicks (clicks : List Nat) (s : FilterState)
    (hinv : btnInvariant s)
    (hb : ∀ j ∈ clicks, j < s.filterBtns.length) :
    btnInvariant (filterBtnClicks s clicks) ∧
    (filterBtnClicks s clicks).filterBtns.length = s.filterBtns.length ∧
    (filterBtnClicks s clicks).activeFilterBtn =
      clicks.getLastD s.activeFilterBtn := by
  induction clicks generalizing s with
  | nil => exact ⟨hinv, rfl, rfl⟩
  | cons c cs ih =>
    have hc : c < s.filterBtns.length := hb c (List.mem_cons_self c cs)
    obtain ⟨hinv1, htrk1⟩ := btnInvariant_filterBtnClick s c hc hinv
    have hlen1 := length_filterBtnClick s c
    have hb1 : ∀ j ∈ cs, j < (filterBtnClick s c).filterBtns.length := by
      intro j hj
      rw [hlen1]
      exact hb j (List.mem_cons_of_mem c hj)
    obtain ⟨hinv2, hlen2, htrk2⟩ := ih (filterBtnClick s c) hinv1 hb1
    have hfold : filterBtnClicks s (c :: cs) =
        filterBtnClicks (filterBtnClick s c) cs := rfl
    refine ⟨hinv2, by rw [hfold, hlen2, hlen1], ?_⟩
    rw [hfold, htrk2, htrk1]
    cases cs <;> simp [List.getLastD]

/-- C4: assuming the first filter button is the one initially holding the
"active" class and the activeFilterBtn variable starts at it, after any
nonempty sequence of in-range filter-button clicks the tracked button is
the most recently clicked one, and a button carries the "active" class
exactly when it is that most recently clicked button, so exactly one
button is highlighted. -/
theorem C4_exactly_one_highlighted (s : FilterState) (clicks : List Nat)
    (hn : 0 < s.filterBtns.length) (htr : s.activeFilterBtn = 0)
    (hinit : ∀ i, i < s.filterBtns.length →
      (s.filterBtns.getD i default).active = decide (i = 0))
    (hne : clicks ≠ [])
    (hb : ∀ j ∈ clicks, j < s.filterBtns.length) :
    (filterBtnClicks s clicks).activeFilterBtn = clicks.getLast hne ∧
    (filterBtnClicks s clicks).filterBtns.length = s.filterBtns.length ∧
    ∀ i, i < s.filterBtns.length →
      ((filterBtnClicks s clicks).filterBtns.getD i default).active =
        decide (i = clicks.getLast hne) := by
  have hinv : btnInvariant s := by
    refine ⟨by rw [htr]; exact hn, ?_⟩
    intro i hi
    rw [hinit i hi, htr]
  obtain ⟨⟨htr2, hact2⟩, hlen2, htrk2⟩ :=
    btnInvariant_filterBtnClicks clicks s hinv hb
  have hlast : clicks.getLastD s.activeFilterBtn = clicks.getLast hne := by
    rw [List.getLastD_eq_getLast?, List.getLast?_eq_getLast clicks hne]
    rfl
  rw [hlast] at htrk2
  refine ⟨htrk2, hlen2, ?_⟩
  intro i hi
  rw [hact2 i (by rw [hlen2]; exact hi), htrk2]

/-- Witness for C4: two buttons, the first initially highlighted; after
clicking button 1, then button 0, then button 1, only button 1 is
highlighted and it is the tracked button. -/
theorem C4_exactly_one_highlighted_witness :
    (filterBtnClicks
        ⟨false, [], [⟨['a'], true⟩, ⟨['b'], false⟩], [], 0⟩
        [1, 0, 1]).activeFilterBtn = ([1, 0, 1] : List Nat).getLast (by decide) ∧
    (filterBtnClicks
        ⟨false, [], [⟨['a'], true⟩, ⟨['b'], false⟩], [], 0⟩
        [1, 0, 1]).filterBtns.length =
      (⟨false, [], [⟨['a'], true⟩, ⟨['b'], false⟩], [], 0⟩ :
        FilterState).filterBtns.length ∧
    ∀ i, i < (⟨false, [], [⟨['a'], true⟩, ⟨['b'], false⟩], [], 0⟩ :
        FilterState).filterBtns.length →
      ((filterBtnClicks
          ⟨false, [], [⟨['a'], true⟩, ⟨['b'], false⟩], [], 0⟩
          [1, 0, 1]).filterBtns.getD i default).active =
        decide (i = ([1, 0, 1] : List Nat).getLast (by decide)) :=
  C4_exactly_one_highlighted
    ⟨false, [], [⟨['a'], true⟩, ⟨['b'], false⟩], [], 0⟩
    [1, 0, 1] (by decide) rfl (by decide) (by decide) (by decide)

lemma length_navSetLinks (t : JStr) (ps : List Page) (ls : List NavLink) :
    (navSetLinks t ps ls).length = ls.length := by
  induction ls generalizing ps with
  | nil => cases ps <;> rfl
  | cons l ls ih =>
    cases ps with
    | nil => rfl
    | cons p ps => simp [navSetLinks, ih]

lemma getD_navSetLinks (t : JStr) (ps : List Page) (ls : List NavLink)
    (i : Nat) (hp : i < ps.length) (hl : i < ls.length) :
    (navSetLinks t ps ls).getD i default =
      { ls.getD i default with
        active := decide (t = (ps.getD i default).pageName) } := by
  induction ls generalizing ps i with
  | nil => simp at hl
  | cons l ls ih =>
    cases ps with
    | nil => simp at hp
    | cons p ps =>
      cases i with
      | zero => rfl
      | succ n =>
        simp only [navSetLinks, List.getD_cons_succ]
        exact ih ps n (by simpa using hp) (by simpa using hl)

lemma navLinkClick_pages (s : NavState) (c : JStr) :
    (navLinkClick s c).pages =
      s.pages.map (fun p =>
        { p with active := decide (jsToLower c = p.pageName) }) := rfl

lemma navLinkClick_links (s : NavState) (c : JStr) :
    (navLinkClick s c).links = navSetLinks (jsToLower c) s.pages s.links := rfl

lemma navLinkClick_scrollX (s : NavState) (c : JStr) :
    (navLinkClick s c).scrollX =
      if s.pages.any (fun p => jsToLower c = p.pageName) then 0
      else s.scrollX := rfl

lemma navLinkClick_scrollY (s : NavState) (c : JStr) :
    (navLinkClick s c).scrollY =
      if s.pages.any (fun p => jsToLower c = p.pageName) then 0
      else s.scrollY := rfl

lemma navAnyMatch_iff (t : JStr) (ps : List Page) :
    (ps.any (fun p => t = p.pageName)) = true ↔
      ∃ i, i < ps.length ∧ t = (ps.getD i default).pageName := by
  rw [List.any_eq_true]
  constructor
  · rintro ⟨p, hp, hpt⟩
    obtain ⟨i, hi, rfl⟩ := List.mem_iff_getElem.mp hp
    exact ⟨i, hi, by
      rw [List.getD_eq_getElem _ _ hi]
      exact of_decide_eq_true hpt⟩
  · rintro ⟨i, hi, ht⟩
    refine ⟨ps[i], List.getElem_mem hi, ?_⟩
    rw [List.getD_eq_getElem _ _ hi] at ht
    exact decide_eq_true ht

/-- C2: clicking a nav link with innerHTML text T lower-cases it to the
target page identifier; afterwards page i and the nav link at the same
index i carry the "active" class exactly when page i's data-page
attribute equals the target, the viewport is scrolled to (0,0) when some
page matches, and when no page matches the scroll position is unchanged
and every page and every corresponding link is inactive. -/
theorem C2_page_navigation (s : NavState) (clickedHTML : JStr)
    (hlen : s.links.length = s.pages.length) :
    ((navLinkClick s clickedHTML).pages.length = s.pages.length ∧
      (navLinkClick s clickedHTML).links.length = s.links.length) ∧
    (∀ i, i < s.pages.length →
      ((navLinkClick s clickedHTML).pages.getD i default).active =
        decide (jsToLower clickedHTML = (s.pages.getD i default).pageName) ∧
      ((navLinkClick s clickedHTML).links.getD i default).active =
        decide (jsToLower clickedHTML = (s.pages.getD i default).pageName)) ∧
    ((∃ i, i < s.pages.length ∧
        jsToLower clickedHTML = (s.pages.getD i default).pageName) →
      (navLinkClick s clickedHTML).scrollX = 0 ∧
      (navLinkClick s clickedHTML).scrollY = 0) ∧
    ((∀ i, i < s.pages.length →
        jsToLower clickedHTML ≠ (s.pages.getD i default).pageName) →
      (navLinkClick s clickedHTML).scrollX = s.scrollX ∧
      (navLinkClick s clickedHTML).scrollY = s.scrollY ∧
      ∀ i, i < s.pages.length →
        ((navLinkClick s clickedHTML).pages.getD i default).active = false ∧
        ((navLinkClick s clickedHTML).links.getD i default).active = false) := by
  have hpt : ∀ i, i < s.pages.length →
      ((navLinkClick s clickedHTML).pages.getD i default).active =
        decide (jsToLower clickedHTML = (s.pages.getD i default).pageName) ∧
      ((navLinkClick s clickedHTML).links.getD i default).active =
        decide (jsToLower clickedHTML = (s.pages.getD i default).pageName) := by
    intro i hi
    constructor
    · rw [navLinkClick_pages]
      rw [getD_map_of_lt _ _ _ default _ hi]
    · rw [navLinkClick_links]
      rw [getD_navSetLinks _ _ _ _ hi (by rw [hlen]; exact hi)]
  refine ⟨⟨?_, ?_⟩, hpt, ?_, ?_⟩
  · rw [navLinkClick_pages]
    simp
  · rw [navLinkClick_links, length_navSetLinks]
  · intro hex
    have hAny : (s.pages.any (fun p => jsToLower clickedHTML = p.pageName)) = true :=
      (navAnyMatch_iff _ _).mpr hex
    rw [navLinkClick_scrollX, navLinkClick_scrollY, hAny]
    exact ⟨rfl, rfl⟩
  · intro hnone
    have hAny : (s.pages.any (fun p => jsToLower clickedHTML = p.pageName)) = false := by
      rw [← Bool.not_eq_true, navAnyMatch_iff]
      rintro ⟨i, hi, ht⟩
      exact hnone i hi ht
    rw [navLinkClick_scrollX, navLinkClick_scrollY, hAny]
    refine ⟨rfl, rfl, ?_⟩
    intro i hi
    obtain ⟨h1, h2⟩ := hpt i hi
    rw [h1, h2, decide_eq_false (hnone i hi)]
    exact ⟨rfl, rfl⟩

/-- Witness for C2: one page "a", one link whose text "A" lower-cases to
"a"; clicking it activates the page and link and scrolls to the
origin. -/
theorem C2_page_navigation_witness :
    ((navLinkClick ⟨[⟨['a'], false⟩], [⟨['A'], false⟩], 3, 4⟩
        ['A']).pages.length =
      (⟨[⟨['a'], false⟩], [⟨['A'], false⟩], 3, 4⟩ : NavState).pages.length ∧
      (navLinkClick ⟨[⟨['a'], false⟩], [⟨['A'], false⟩], 3, 4⟩
        ['A']).links.length =
      (⟨[⟨['a'], false⟩], [⟨['A'], false⟩], 3, 4⟩ : NavState).links.length) ∧
    (∀ i, i < (⟨[⟨['a'], false⟩], [⟨['A'], false⟩], 3, 4⟩ : NavState).pages.length →
      ((navLinkClick ⟨[⟨['a'], false⟩], [⟨['A'], false⟩], 3, 4⟩
          ['A']).pages.getD i default).active =
        decide (jsToLower ['A'] =
          ((⟨[⟨['a'], false⟩], [⟨['A'], false⟩], 3, 4⟩ : NavState).pages.getD i
            default).pageName) ∧
      ((navLinkClick ⟨[⟨['a'], false⟩], [⟨['A'], false⟩], 3, 4⟩
          ['A']).links.getD i default).active =
        decide (jsToLower ['A'] =
          ((⟨[⟨['a'], false⟩], [⟨['A'], false⟩], 3, 4⟩ : NavState).pages.getD i
            default).pageName)) ∧
    ((∃ i, i < (⟨[⟨['a'], false⟩], [⟨['A'], false⟩], 3, 4⟩ : NavState).pages.length ∧
        jsToLower ['A'] =
          ((⟨[⟨['a'], false⟩], [⟨['A'], false⟩], 3, 4⟩ : NavState).pages.getD i
            default).pageName) →
      (navLinkClick ⟨[⟨['a'], false⟩], [⟨['A'], false⟩], 3, 4⟩ ['A']).scrollX = 0 ∧
      (navLinkClick ⟨[⟨['a'], false⟩], [⟨['A'], false⟩], 3, 4⟩ ['A']).scrollY = 0) ∧
    ((∀ i, i < (⟨[⟨['a'], false⟩], [⟨['A'], false⟩], 3, 4⟩ : NavState).pages.length →
        jsToLower ['A'] ≠
          ((⟨[⟨['a'], false⟩], [⟨['A'], false⟩], 3, 4⟩ : NavState).pages.getD i
            default).pageName) →
      (navLinkClick ⟨[⟨['a'], false⟩], [⟨['A'], false⟩], 3, 4⟩ ['A']).scrollX =
        (⟨[⟨['a'], false⟩], [⟨['A'], false⟩], 3, 4⟩ : NavState).scrollX ∧
      (navLinkClick ⟨[⟨['a'], false⟩], [⟨['A'], false⟩], 3, 4⟩ ['A']).scrollY =
        (⟨[⟨['a'], false⟩], [⟨['A'], false⟩], 3, 4⟩ : NavState).scrollY ∧
      ∀ i, i < (⟨[⟨['a'], false⟩], [⟨['A'], false⟩], 3, 4⟩ : NavState).pages.length →
        ((navLinkClick ⟨[⟨['a'], false⟩], [⟨['A'], false⟩], 3, 4⟩
            ['A']).pages.getD i default).active = false ∧
        ((navLinkClick ⟨[⟨['a'], false⟩], [⟨['A'], false⟩], 3, 4⟩
            ['A']).links.getD i default).active = false) :=
  C2_page_navigation ⟨[⟨['a'], false⟩], [⟨['A'], false⟩], 3, 4⟩ ['A'] rfl

end Portfolio
